import Mathlib

set_option maxRecDepth 8000

/-!
Verification of the Daly BMS Modbus polling scripts (`new_main.py`,
`main.py`, `address.py`).  The protocol engine is embedded shallowly:
bytes are `Nat` values below 256, frames are `List Nat`, fallible Python
code (struct packing/unpacking, indexing) is modelled with `Option` and
`Except`, and floating-point scaling is modelled with exact rationals.
-/

namespace Daly

/-! ### Checksum engine (`calculate_crc` in `new_main.py` / `main.py`) -/

/-- One shift step of the Modbus CRC16 inner loop:
`crc = (crc >> 1) ^ 0xA001` when the low bit is set, else `crc >> 1`. -/
def crcShift (crc : Nat) : Nat :=
  if crc &&& 0x0001 ≠ 0 then (crc >>> 1) ^^^ 0xA001 else crc >>> 1

/-- Processing of one input byte: XOR it in, then run eight shift steps. -/
def crcByteStep (crc b : Nat) : Nat :=
  (List.range 8).foldl (fun c _ => crcShift c) (crc ^^^ b)

/-- The 16-bit CRC value: initial value `0xFFFF` folded over the data. -/
def calculate_crc_val (data : List Nat) : Nat :=
  data.foldl crcByteStep 0xFFFF

/-- `calculate_crc`: the CRC serialized little-endian (`struct.pack` with
format `<H`), low byte first. -/
def calculate_crc (data : List Nat) : List Nat :=
  [calculate_crc_val data % 256, calculate_crc_val data / 256]

/-! ### Frame builder (`send_modbus_request`) -/

/-- `struct.pack` with format `>BBHH`: two unsigned bytes followed by two
big-endian 16-bit words; raises (here: `none`) when a value does not fit
its field. -/
def packBBHH (a b c d : Nat) : Option (List Nat) :=
  if a ≤ 0xFF ∧ b ≤ 0xFF ∧ c ≤ 0xFFFF ∧ d ≤ 0xFFFF then
    some [a, b, c / 256, c % 256, d / 256, d % 256]
  else none

/-- The request frame built and written by `send_modbus_request`:
header fields packed big-endian, CRC appended little-endian.  `none`
models a `struct.error` escaping the call. -/
def send_modbus_request (slave_id function_code start_addr count : Nat) :
    Option (List Nat) :=
  (packBBHH slave_id function_code start_addr count).map
    (fun frame => frame ++ calculate_crc frame)

/-! ### Response reassembly and parsing (`read_modbus_response` in
`new_main.py`) -/

/-- Python runtime errors that the response parser can raise. -/
inductive PyError where
  | indexError
  | structError
deriving DecidableEq, Repr

/-- `struct.unpack` with format `>H` on a byte slice: a big-endian 16-bit
value, raising `struct.error` unless the slice holds exactly 2 bytes. -/
def unpackBE16 (bs : List Nat) : Except PyError Nat :=
  match bs with
  | [hi, lo] => .ok (hi * 256 + lo)
  | _ => .error .structError

/-- The register-extraction loop
`for i in range(0, byte_count, 2): struct.unpack(data[i:i+2])`,
written as a recursion consuming two bytes per iteration: an odd
`byte_count` ends in one final iteration whose slice holds at most one
byte. -/
def parseRegisters : List Nat → Nat → Except PyError (List Nat)
  | _, 0 => .ok []
  | data, 1 =>
    match unpackBE16 (data.take 2) with
    | .error e => .error e
    | .ok v => .ok [v]
  | data, (n + 2) =>
    match unpackBE16 (data.take 2) with
    | .error e => .error e
    | .ok v =>
      match parseRegisters (data.drop 2) n with
      | .error e => .error e
      | .ok vs => .ok (v :: vs)

/-- The frame-completion test of the accumulation loop in
`read_modbus_response` (`new_main.py` lines 59–69): with at least 5
bytes, a function-03 frame is complete at `5 + byte_count` bytes and an
exception frame (function code ≥ 0x80) is complete at 5 bytes. -/
def frameComplete (response : List Nat) : Bool :=
  if 5 ≤ response.length then
    match response with
    | _ :: fc :: bc :: _ =>
      if fc = 0x03 then decide (5 + bc ≤ response.length)
      else if 0x80 ≤ fc then true
      else false
    | _ => false
  else false

/-- The parse phase of `read_modbus_response` applied to the accumulated
buffer: empty buffer → `None`; function code ≥ 0x80 → `None` (the
device-reported error code at index 2 is discarded); function code 3 →
register list via `parseRegisters`; anything else → `None`.  The
trailing CRC bytes are never examined. -/
def read_modbus_response (response : List Nat) :
    Except PyError (Option (List Nat)) :=
  if response = [] then .ok none
  else
    match response.get? 1 with
    | none => .error .indexError
    | some function_code =>
      if 0x80 ≤ function_code then .ok none
      else if function_code = 0x03 then
        match response.get? 2 with
        | none => .error .indexError
        | some byte_count =>
          (parseRegisters ((response.drop 3).take byte_count) byte_count).map
            some
      else .ok none

/-- Modelled from the spec: the receive-side checksum validation the spec
requires ("checksum over all bytes except the trailing 2 matches the
trailing 2 bytes, low-byte-first").  Absent from the source, which never
verifies a received CRC. -/
def crcMatches (response : List Nat) : Bool :=
  calculate_crc (response.take (response.length - 2)) =
    response.drop (response.length - 2)

/-! ### Fault decoder (`get_fault_list` in `address.py`) -/

/-- The fault-1 checks, in source order: high byte (`f1_msb`) bits 0–7
(voltage faults), then low byte (`f1_lsb`) bits 0–7 (temperature
faults). -/
def fault1Checks (f1 : Nat) : List (Bool × String) :=
  let f1_msb := (f1 >>> 8) &&& 0xFF
  let f1_lsb := f1 &&& 0xFF
  [ (f1_msb &&& 0x01 != 0, "Cell V High L1"),
    (f1_msb &&& 0x02 != 0, "Cell V High L2"),
    (f1_msb &&& 0x04 != 0, "Cell V Low L1"),
    (f1_msb &&& 0x08 != 0, "Cell V Low L2"),
    (f1_msb &&& 0x10 != 0, "Pack V High L1"),
    (f1_msb &&& 0x20 != 0, "Pack V High L2"),
    (f1_msb &&& 0x40 != 0, "Pack V Low L1"),
    (f1_msb &&& 0x80 != 0, "Pack V Low L2"),
    (f1_lsb &&& 0x01 != 0, "Chg Temp High L1"),
    (f1_lsb &&& 0x02 != 0, "Chg Temp High L2"),
    (f1_lsb &&& 0x04 != 0, "Chg Temp Low L1"),
    (f1_lsb &&& 0x08 != 0, "Chg Temp Low L2"),
    (f1_lsb &&& 0x10 != 0, "Dischg Temp High L1"),
    (f1_lsb &&& 0x20 != 0, "Dischg Temp High L2"),
    (f1_lsb &&& 0x40 != 0, "Dischg Temp Low L1"),
    (f1_lsb &&& 0x80 != 0, "Dischg Temp Low L2") ]

/-- The fault-2 checks (current / SOC / imbalance), in source order. -/
def fault2Checks (f2 : Nat) : List (Bool × String) :=
  let f2_msb := (f2 >>> 8) &&& 0xFF
  let f2_lsb := f2 &&& 0xFF
  [ (f2_msb &&& 0x01 != 0, "Chg Overcur L1"),
    (f2_msb &&& 0x02 != 0, "Chg Overcur L2"),
    (f2_msb &&& 0x04 != 0, "Dischg Overcur L1"),
    (f2_msb &&& 0x08 != 0, "Dischg Overcur L2"),
    (f2_msb &&& 0x10 != 0, "SOC High L1"),
    (f2_msb &&& 0x20 != 0, "SOC High L2"),
    (f2_msb &&& 0x40 != 0, "SOC Low L1"),
    (f2_msb &&& 0x80 != 0, "SOC Low L2"),
    (f2_lsb &&& 0x01 != 0, "Diff V High L1"),
    (f2_lsb &&& 0x02 != 0, "Diff V High L2"),
    (f2_lsb &&& 0x04 != 0, "Diff Temp High L1"),
    (f2_lsb &&& 0x08 != 0, "Diff Temp High L2"),
    (f2_lsb &&& 0x10 != 0, "MOS Temp High L1"),
    (f2_lsb &&& 0x20 != 0, "MOS Temp High L2"),
    (f2_lsb &&& 0x40 != 0, "Amb Temp High L1"),
    (f2_lsb &&& 0x80 != 0, "Amb Temp High L2") ]

/-- The fault-3 checks (MOS / hardware), in source order. -/
def fault3Checks (f3 : Nat) : List (Bool × String) :=
  let f3_msb := (f3 >>> 8) &&& 0xFF
  let f3_lsb := f3 &&& 0xFF
  [ (f3_msb &&& 0x01 != 0, "Chg MOS Temp Warn"),
    (f3_msb &&& 0x02 != 0, "Dischg MOS Temp Warn"),
    (f3_msb &&& 0x04 != 0, "Chg MOS Sensor Fail"),
    (f3_msb &&& 0x08 != 0, "Dischg MOS Sensor Fail"),
    (f3_msb &&& 0x10 != 0, "Chg MOS Adhesion"),
    (f3_msb &&& 0x20 != 0, "Dischg MOS Adhesion"),
    (f3_msb &&& 0x40 != 0, "Chg MOS Open Circ"),
    (f3_msb &&& 0x80 != 0, "Dischg MOS Open Circ"),
    (f3_lsb &&& 0x01 != 0, "AFE Fail"),
    (f3_lsb &&& 0x02 != 0, "Volt Sensor Disconn"),
    (f3_lsb &&& 0x04 != 0, "Temp Sensor Fail"),
    (f3_lsb &&& 0x08 != 0, "EEPROM Fail"),
    (f3_lsb &&& 0x10 != 0, "RTC Fail"),
    (f3_lsb &&& 0x20 != 0, "Precharge Fail"),
    (f3_lsb &&& 0x40 != 0, "Veh Comm Fail"),
    (f3_lsb &&& 0x80 != 0, "Int Net Fail") ]

/-- The fault-4 checks: only high-byte bits 0–5 are examined by the
source; the low byte of word 4 and high-byte bits 6–7 are never read. -/
def fault4Checks (f4 : Nat) : List (Bool × String) :=
  let f4_msb := (f4 >>> 8) &&& 0xFF
  [ (f4_msb &&& 0x01 != 0, "Curr Mod Fail"),
    (f4_msb &&& 0x02 != 0, "Press Mod Fail"),
    (f4_msb &&& 0x04 != 0, "Short Circ"),
    (f4_msb &&& 0x08 != 0, "Low V Chg Prohibit"),
    (f4_msb &&& 0x10 != 0, "GPS/Switch MOS"),
    (f4_msb &&& 0x20 != 0, "Chg Cab Offline") ]

/-- All checks of `get_fault_list` in the order the source performs
them: word 1 (high byte then low byte), word 2, word 3, word 4. -/
def faultChecks (f1 f2 f3 f4 : Nat) : List (Bool × String) :=
  fault1Checks f1 ++ fault2Checks f2 ++ fault3Checks f3 ++ fault4Checks f4

/-- `get_fault_list`: start from an empty list and append each label
whose bit test succeeds, in source order. -/
def get_fault_list (f1 f2 f3 f4 : Nat) : List String :=
  (faultChecks f1 f2 f3 f4).foldl
    (fun faults c => if c.1 then faults ++ [c.2] else faults) []

/-- The fixed ordered catalog of the 54 fault labels the decoder can
emit. -/
def faultCatalog : List String :=
  (faultChecks 0xFFFF 0xFFFF 0xFFFF 0xFFFF).map Prod.snd

/-! ### Register map constants (`address.py`) -/

def BATT_TEMP_START_ADDRESS : Nat := 0x30
def BATT_TEMP_REGISTER_COUNT : Nat := 8
def BATT_TEMP_OFFSET_CELL_1 : Nat := 0x00
def BATT_TEMP_OFFSET_CELL_2 : Nat := 0x01
def BATT_TEMP_OFFSET_CELL_3 : Nat := 0x02
def BATT_TEMP_OFFSET_CELL_4 : Nat := 0x03
def START_ADDRESS : Nat := 0x38
def REGISTER_COUNT : Nat := 50
def OFFSET_VOLTAGE : Nat := 0x00
def OFFSET_CURRENT : Nat := 0x01
def OFFSET_SOC : Nat := 0x02
def OFFSET_MAX_CELL_V : Nat := 0x06
def OFFSET_MIN_CELL_V : Nat := 0x08
def OFFSET_DIFF_CELL_V : Nat := 0x0A
def OFFSET_CHG_DISCHG_STATUS : Nat := 0x10
def OFFSET_REMAINING_CAP : Nat := 0x13
def OFFSET_CYCLES : Nat := 0x14
def OFFSET_FAULT_1 : Nat := 0x2E
def OFFSET_FAULT_2 : Nat := 0x2F
def OFFSET_FAULT_3 : Nat := 0x30
def OFFSET_FAULT_4 : Nat := 0x31
def CURRENT_OFFSET : Nat := 30000
def TEMP_OFFSET : Nat := 40

/-! ### Register decoding and per-device polling (the cycle body of
`main` in `new_main.py`) -/

/-- The pack-data quantities `main` extracts from a 50-register block.
Scaled quantities divided by `10.0` are modelled with exact rationals. -/
structure PackReading where
  voltage : ℚ
  current : ℚ
  soc : ℚ
  min_v : Nat
  max_v : Nat
  diff_v : Nat
  status_str : String
  cycles : Nat
  rem_cap : ℚ
  fault_list : List String
deriving DecidableEq, Repr

/-- Decoding of one 50-register pack-data block, as in `main`
(`new_main.py` lines 147–181). -/
def decodePack (rs : List Nat) : PackReading :=
  let status_val := rs.getD OFFSET_CHG_DISCHG_STATUS 0
  { voltage := (rs.getD OFFSET_VOLTAGE 0 : ℚ) / 10
    current := ((rs.getD OFFSET_CURRENT 0 : Int) - (CURRENT_OFFSET : Int) : ℚ) / 10
    soc := (rs.getD OFFSET_SOC 0 : ℚ) / 10
    min_v := rs.getD OFFSET_MIN_CELL_V 0
    max_v := rs.getD OFFSET_MAX_CELL_V 0
    diff_v := rs.getD OFFSET_DIFF_CELL_V 0
    status_str :=
      if status_val = 1 then "Charge"
      else if status_val = 2 then "Dischg"
      else "Idle"
    cycles := rs.getD OFFSET_CYCLES 0
    rem_cap := (rs.getD OFFSET_REMAINING_CAP 0 : ℚ) / 10
    fault_list := get_fault_list (rs.getD OFFSET_FAULT_1 0) (rs.getD OFFSET_FAULT_2 0)
      (rs.getD OFFSET_FAULT_3 0) (rs.getD OFFSET_FAULT_4 0) }

/-- Python truthiness of an optional register list: `None` and the empty
list are falsy. -/
def truthy : Option (List Nat) → Bool
  | some (_ :: _) => true
  | _ => false

/-- The temperature branch of the cycle body: cell temperatures are
parsed when `temp_registers and len(temp_registers) >= 4`; the default
is the empty list (rendered `--`). -/
def decodeCellTemps (temp_registers : Option (List Nat)) : List Int :=
  match temp_registers with
  | some rs =>
    if truthy (some rs) && 4 ≤ rs.length then
      [(rs.getD BATT_TEMP_OFFSET_CELL_1 0 : Int) - (TEMP_OFFSET : Int),
       (rs.getD BATT_TEMP_OFFSET_CELL_2 0 : Int) - (TEMP_OFFSET : Int),
       (rs.getD BATT_TEMP_OFFSET_CELL_3 0 : Int) - (TEMP_OFFSET : Int),
       (rs.getD BATT_TEMP_OFFSET_CELL_4 0 : Int) - (TEMP_OFFSET : Int)]
    else []
  | none => []

/-- A configured battery: request id, response id, display name. -/
structure Battery where
  request_id : Nat
  response_id : Nat
  name : String
deriving DecidableEq, Repr

/-- What one cycle records for one battery: parsed cell temperatures
(empty when unavailable) and the decoded pack data, `none` when the
pack read failed or returned the wrong register count (the script
prints the `Timeout` row). -/
structure CycleResult where
  battery : Battery
  cellTemps : List Int
  pack : Option PackReading
deriving DecidableEq, Repr

/-- One iteration of the per-battery loop in `main`: decode the
temperature response, then decode the pack response only when it is
truthy and its length equals `REGISTER_COUNT`. -/
def processDevice (b : Battery) (temp_registers pack_registers : Option (List Nat)) :
    CycleResult :=
  { battery := b
    cellTemps := decodeCellTemps temp_registers
    pack :=
      match pack_registers with
      | some rs =>
        if truthy (some rs) && rs.length = REGISTER_COUNT then
          some (decodePack rs)
        else none
      | none => none }

/-- One polling cycle: the batteries are visited in configuration
order, each issuing a temperature request then a pack-data request on
the shared bus; `bus k` is the parsed outcome of the k-th request of
the cycle. -/
def processCycle (batteries : List Battery) (bus : Nat → Option (List Nat))
    (k : Nat) : List CycleResult :=
  match batteries with
  | [] => []
  | b :: rest =>
    processDevice b (bus k) (bus (k + 1)) :: processCycle rest bus (k + 2)

/-! ### Helper lemmas -/

/-- Accumulating conditional appends is a `filterMap` over the check
list. -/
theorem foldl_append_eq_filterMap (l : List (Bool × String)) (acc : List String) :
    l.foldl (fun fs c => if c.1 then fs ++ [c.2] else fs) acc =
      acc ++ l.filterMap (fun c => if c.1 then some c.2 else none) := by
  induction l generalizing acc with
  | nil => simp
  | cons c l ih =>
    by_cases h : c.1 <;> simp [h, ih, List.append_assoc]

/-- `get_fault_list` is the `filterMap` of the ordered check list:
labels appear exactly when their bit test holds, in check order. -/
theorem get_fault_list_eq_filterMap (f1 f2 f3 f4 : Nat) :
    get_fault_list f1 f2 f3 f4 =
      (faultChecks f1 f2 f3 f4).filterMap
        (fun c => if c.1 then some c.2 else none) := by
  simpa using foldl_append_eq_filterMap (faultChecks f1 f2 f3 f4) []

/-- A conditional `filterMap` of second components is a sublist of all
second components. -/
theorem filterMap_if_sublist (l : List (Bool × String)) :
    List.Sublist (l.filterMap (fun c => if c.1 then some c.2 else none))
      (l.map Prod.snd) := by
  induction l with
  | nil => simp
  | cons c l ih =>
    by_cases h : c.1
    · simpa [h] using ih.cons₂ c.2
    · simpa [h] using ih.cons c.2

/-- The label list of the checks is the fixed catalog, whatever the
fault words are. -/
theorem faultChecks_map_snd (f1 f2 f3 f4 : Nat) :
    (faultChecks f1 f2 f3 f4).map Prod.snd = faultCatalog := rfl

/-- Every output of `get_fault_list` is a sublist of the fixed ordered
catalog. -/
theorem get_fault_list_sublist_catalog (f1 f2 f3 f4 : Nat) :
    List.Sublist (get_fault_list f1 f2 f3 f4) faultCatalog := by
  rw [get_fault_list_eq_filterMap, ← faultChecks_map_snd f1 f2 f3 f4]
  exact filterMap_if_sublist _

/-! ### C1: received checksums are never validated -/

/-- C1: the spec requires that a CRC mismatch on a reassembled frame
yields a malformed-frame outcome and never a `RegisterSet`.  The source
never validates received checksums: the concrete frame
`51 03 02 04 D2 00 00` has trailing bytes `00 00` that do not match the
CRC of its first five bytes, yet `read_modbus_response` returns the
register list `[1234]`; indeed the result is the same whatever the two
trailing bytes hold. -/
theorem c1_crc_never_validated_on_receive :
    crcMatches [0x51, 0x03, 0x02, 0x04, 0xD2, 0x00, 0x00] = false ∧
    read_modbus_response [0x51, 0x03, 0x02, 0x04, 0xD2, 0x00, 0x00] =
      .ok (some [1234]) ∧
    (∀ b1 b2 : Nat,
      read_modbus_response [0x51, 0x03, 0x02, 0x04, 0xD2, b1, b2] =
        .ok (some [1234])) := by
  refine ⟨by decide, rfl, fun b1 b2 => rfl⟩

/-! ### C2: the checksum test vector -/

/-- C2 counterexample: the claim states the checksum of
`[01 03 00 00 00 0A]` is the 16-bit value `0xC5CD` serialized as bytes
`C5 CD`; the computed 16-bit value is `0xCDC5 ≠ 0xC5CD`, so the claimed
value is wrong (the bytes `C5 CD` are the little-endian serialization
of `0xCDC5`). -/
theorem c2_claimed_value_wrong :
    calculate_crc_val [0x01, 0x03, 0x00, 0x00, 0x00, 0x0A] = 0xCDC5 ∧
    (0xCDC5 : Nat) ≠ 0xC5CD := by
  decide

/-- C2 (amended): the checksum of `[01 03 00 00 00 0A]` is the 16-bit
value `0xCDC5`, serialized low-byte-first as the two bytes `C5 CD`. -/
theorem c2_crc_test_vector :
    calculate_crc_val [0x01, 0x03, 0x00, 0x00, 0x00, 0x0A] = 0xCDC5 ∧
    calculate_crc [0x01, 0x03, 0x00, 0x00, 0x00, 0x0A] = [0xC5, 0xCD] := by
  decide

/-! ### C6: the frame builder performs no register-count range check -/

/-- C6 counterexample: a register count of 0 violates the claimed
precondition `0 < count ≤ 125`, yet the frame builder silently produces
a request frame (likewise for a count of 200). -/
theorem c6_out_of_range_count_accepted :
    (send_modbus_request 0x81 0x03 START_ADDRESS 0).isSome = true ∧
    (send_modbus_request 0x81 0x03 START_ADDRESS 200).isSome = true := by
  decide

/-- C6 (amended): the frame builder checks nothing beyond `struct.pack`
field widths: it fails fast exactly when a value does not fit its field
(count or start address above `0xFFFF`, slave id or function code above
`0xFF`); any count from 0 to 65535 — including 0 and counts above 125 —
is silently serialized into a request frame. -/
theorem c6_only_field_width_checked :
    ∀ slave_id function_code start_addr count : Nat,
      (send_modbus_request slave_id function_code start_addr count).isSome = true ↔
        (slave_id ≤ 0xFF ∧ function_code ≤ 0xFF ∧
         start_addr ≤ 0xFFFF ∧ count ≤ 0xFFFF) := by
  intro a b c d
  unfold send_modbus_request packBBHH
  split
  next h => simp [h]
  next h => simp [h]

/-! ### C3: register-count acceptance conditions -/

/-- C3 counterexample: the claim requires the temperature block to be
accepted only at exactly `BATT_TEMP_REGISTER_COUNT = 8` registers, but
a 4-register list is accepted and decoded into cell temperatures rather
than recorded as a decode failure. -/
theorem c3_short_temp_block_accepted :
    decodeCellTemps (some [45, 45, 45, 45]) = [5, 5, 5, 5] ∧
    [45, 45, 45, 45].length ≠ BATT_TEMP_REGISTER_COUNT := by
  decide

/-- C3 (amended): a pack-data register list is decoded into a
`PackReading` exactly when its length equals `REGISTER_COUNT = 50`, but
the temperature block is decoded into cell temperatures whenever it
holds at least 4 registers — not only at exactly 8. -/
theorem c3_acceptance_conditions :
    (∀ (b : Battery) (t p : Option (List Nat)),
      ((processDevice b t p).pack.isSome = true ↔
        ∃ rs, p = some rs ∧ rs.length = REGISTER_COUNT)) ∧
    (∀ (b : Battery) (t p : Option (List Nat)),
      ((processDevice b t p).cellTemps ≠ [] ↔
        ∃ rs, t = some rs ∧ 4 ≤ rs.length)) := by
  constructor
  · intro b t p
    constructor
    · intro h
      match p with
      | none => simp [processDevice] at h
      | some [] => simp [processDevice, truthy] at h
      | some (x :: xs) =>
        refine ⟨x :: xs, rfl, ?_⟩
        by_contra hl
        simp only [List.length_cons] at hl
        simp [processDevice, truthy, hl] at h
    · rintro ⟨rs, rfl, hl⟩
      match rs, hl with
      | x :: xs, hl =>
        simp only [List.length_cons] at hl
        simp [processDevice, truthy, hl]
      | [], hl => simp [REGISTER_COUNT] at hl
  · intro b t p
    constructor
    · intro h
      match t with
      | none => simp [processDevice, decodeCellTemps] at h
      | some [] => simp [processDevice, decodeCellTemps, truthy] at h
      | some (x :: xs) =>
        refine ⟨x :: xs, rfl, ?_⟩
        by_contra hl
        simp only [List.length_cons] at hl
        simp [processDevice, decodeCellTemps, truthy, hl] at h
    · rintro ⟨rs, rfl, hl⟩
      match rs, hl with
      | x :: xs, hl =>
        have hxs : 3 ≤ xs.length := by simpa using hl
        simp [processDevice, decodeCellTemps, truthy, hxs]
      | [], hl => simp at hl

/-! ### C4: register-to-value transforms -/

/-- C4: the pack decoder computes voltage as `register 0 × 0.1`,
current as `(register 1 − 30000) × 0.1`, state of charge as
`register 2 × 0.1`, and each of the first four temperature registers
minus 40 gives °C; concretely, raw voltage 1234 decodes to 123.4, raw
current 30050 to 5, raw current 29900 to −10, and raw temperature 45 to
5 °C. -/
theorem c4_register_transforms :
    (∀ rs : List Nat,
      (decodePack rs).voltage = (rs.getD 0 0 : ℚ) / 10 ∧
      (decodePack rs).current = (((rs.getD 1 0 : Int) - 30000 : Int) : ℚ) / 10 ∧
      (decodePack rs).soc = (rs.getD 2 0 : ℚ) / 10) ∧
    (∀ (a b c d : Nat) (rest : List Nat),
      decodeCellTemps (some (a :: b :: c :: d :: rest)) =
        [(a : Int) - 40, (b : Int) - 40, (c : Int) - 40, (d : Int) - 40]) ∧
    (decodePack (1234 :: 30050 :: 500 :: List.replicate 47 0)).voltage = 123.4 ∧
    (decodePack (1234 :: 30050 :: 500 :: List.replicate 47 0)).current = 5 ∧
    (decodePack (1234 :: 29900 :: 500 :: List.replicate 47 0)).current = -10 ∧
    decodeCellTemps (some [45, 45, 45, 45]) = [5, 5, 5, 5] := by
  refine ⟨fun rs => ⟨rfl, ?_, rfl⟩, fun a b c d rest => ?_, ?_, ?_, ?_, by decide⟩
  · simp only [decodePack]
    norm_num [CURRENT_OFFSET, OFFSET_CURRENT]
  · simp [decodeCellTemps, truthy, BATT_TEMP_OFFSET_CELL_1, BATT_TEMP_OFFSET_CELL_2,
      BATT_TEMP_OFFSET_CELL_3, BATT_TEMP_OFFSET_CELL_4, TEMP_OFFSET]
  · norm_num [decodePack, OFFSET_VOLTAGE, List.getD]
  · norm_num [decodePack, OFFSET_CURRENT, CURRENT_OFFSET, List.getD]
  · norm_num [decodePack, OFFSET_CURRENT, CURRENT_OFFSET, List.getD]

/-! ### C5: exception responses -/

/-- C5 counterexample: the claim says the outcome of an exception
response carries the device-reported error code; two complete
exception frames with different embedded error codes (1 and 2) yield
the very same outcome `None`, which carries no error code and no
registers. -/
theorem c5_error_code_not_carried :
    read_modbus_response [0x51, 0x83, 0x01, 0xAA, 0xBB] =
      read_modbus_response [0x51, 0x83, 0x02, 0xCC, 0xDD] ∧
    read_modbus_response [0x51, 0x83, 0x01, 0xAA, 0xBB] = .ok none := by
  exact ⟨rfl, rfl⟩

/-- C5 (amended): a response whose function-code byte has the high bit
set is treated by the reassembly loop as an exception response of fixed
total length 5, and the parse result is the `None` outcome with no
registers; the device-reported error code at byte index 2 is read into
the frame but discarded, not carried in the outcome. -/
theorem c5_exception_frames (r : List Nat) (fc : Nat)
    (h1 : r.get? 1 = some fc) (hfc : 0x80 ≤ fc) :
    (frameComplete r = true ↔ 5 ≤ r.length) ∧
    read_modbus_response r = .ok none := by
  match r, h1 with
  | a :: b :: rest, h1 =>
    have hb : b = fc := by simpa using h1
    subst hb
    have hb3 : ¬ b = 0x03 := by omega
    constructor
    · match rest with
      | [] => simp [frameComplete]
      | c :: rest' =>
        simp only [frameComplete, List.length_cons]
        constructor
        · intro h
          by_cases h5 : 5 ≤ rest'.length + 1 + 1 + 1
          · omega
          · simp [h5] at h
        · intro h5
          have h5' : 5 ≤ rest'.length + 1 + 1 + 1 := by simpa using h5
          simp [h5', hb3, hfc]
    · simp [read_modbus_response, hb3, hfc]

/-- C5 witness: the amended statement at the concrete exception frame
`51 83 01 00 00` (function code `0x83`, error code 1). -/
theorem c5_exception_frames_witness :
    (frameComplete [0x51, 0x83, 0x01, 0x00, 0x00] = true ↔
      5 ≤ ([0x51, 0x83, 0x01, 0x00, 0x00] : List Nat).length) ∧
    read_modbus_response [0x51, 0x83, 0x01, 0x00, 0x00] = .ok none :=
  c5_exception_frames [0x51, 0x83, 0x01, 0x00, 0x00] 0x83 rfl (by decide)

/-! ### C7: fault decoding order and the concrete vectors -/

/-- C7: the fault decoder is a pure function of the four fault words
that emits labels as the `filterMap` of the fixed ordered check list —
word 1 high-byte bits 0–7, then word 1 low-byte bits 0–7, then words 2,
3, 4 — so the output is always a sublist of the fixed catalog; all-zero
words give the empty list, and fault word 1 = `0x0100` alone gives
exactly the single level-1 cell-voltage-high label. -/
theorem c7_fault_decode_order :
    get_fault_list 0 0 0 0 = [] ∧
    get_fault_list 0x0100 0 0 0 = ["Cell V High L1"] ∧
    (∀ f1 f2 f3 f4 : Nat,
      get_fault_list f1 f2 f3 f4 =
        (faultChecks f1 f2 f3 f4).filterMap
          (fun c => if c.1 then some c.2 else none)) ∧
    (∀ f1 f2 f3 f4 : Nat,
      List.Sublist (get_fault_list f1 f2 f3 f4) faultCatalog) := by
  exact ⟨by decide, by decide, get_fault_list_eq_filterMap,
    get_fault_list_sublist_catalog⟩

/-! ### C8: one `CycleResult` per configured device -/

/-- The three batteries configured in `new_main.py`. -/
def configuredBatteries : List Battery :=
  [⟨0x81, 0x51, "Battery 1"⟩, ⟨0x82, 0x52, "Battery 2"⟩, ⟨0x83, 0x53, "Battery 3"⟩]

/-- An example bus where the second battery's two requests time out
(`none`) while the other batteries answer with full register blocks. -/
def exampleBus : Nat → Option (List Nat) := fun k =>
  if k = 2 ∨ k = 3 then none
  else if k % 2 = 0 then some (List.replicate 8 45)
  else some (List.replicate 50 0)

/-- C8: a polling cycle yields exactly one `CycleResult` per configured
battery, the i-th result depending only on the i-th battery and its own
two bus responses — so a failure for one device never prevents or
alters the results of the others; in particular, for the 3 configured
batteries with the second one timing out, the cycle yields exactly 3
results. -/
theorem c8_one_result_per_device :
    (∀ (batteries : List Battery) (bus : Nat → Option (List Nat)) (k : Nat),
      (processCycle batteries bus k).length = batteries.length) ∧
    (∀ (batteries : List Battery) (bus : Nat → Option (List Nat)) (k i : Nat),
      (processCycle batteries bus k).get? i =
        (batteries.get? i).map
          (fun b => processDevice b (bus (k + 2 * i)) (bus (k + 2 * i + 1)))) ∧
    (processCycle configuredBatteries exampleBus 0).length = 3 ∧
    (processCycle configuredBatteries exampleBus 0).map CycleResult.cellTemps =
      [[5, 5, 5, 5], [], [5, 5, 5, 5]] := by
  have hlen : ∀ (batteries : List Battery) (bus : Nat → Option (List Nat))
      (k : Nat), (processCycle batteries bus k).length = batteries.length := by
    intro batteries
    induction batteries with
    | nil => intro bus k; rfl
    | cons b rest ih =>
      intro bus k
      simp [processCycle, ih]
  refine ⟨hlen, ?_, by rw [hlen]; rfl, by decide⟩
  intro batteries
  induction batteries with
  | nil => intro bus k i; simp [processCycle]
  | cons b rest ih =>
    intro bus k i
    match i with
    | 0 => simp [processCycle]
    | i + 1 =>
      have := ih bus (k + 2) i
      simp only [processCycle, List.get?_cons_succ, List.get?]
      rw [this]
      have harith : k + 2 + 2 * i = k + 2 * (i + 1) := by ring
      rw [harith]

/-! ### C9: odd byte-count fields crash the register-extraction loop -/

/-- With a data slice as long as an odd byte count, the extraction loop
ends on a one-byte slice and raises `struct.error`. -/
theorem parseRegisters_odd :
    ∀ (bc : Nat) (data : List Nat), data.length = bc → bc % 2 = 1 →
      parseRegisters data bc = .error .structError := by
  intro bc
  induction bc using Nat.strong_induction_on with
  | _ bc ih =>
    intro data hlen hodd
    match bc, data, hlen with
    | 0, _, _ => simp at hodd
    | 1, [x], _ => rfl
    | n + 2, a :: b :: rest, hlen =>
      have hr : rest.length = n := by simpa using hlen
      have hro : n % 2 = 1 := by omega
      have hrec := ih n (by omega) rest hr hro
      simp [parseRegisters, unpackBE16, hrec]

/-- With a data slice as long as an even byte count, the extraction
loop is total and yields one register per two bytes. -/
theorem parseRegisters_even :
    ∀ (bc : Nat) (data : List Nat), data.length = bc → bc % 2 = 0 →
      ∃ vs, parseRegisters data bc = .ok vs ∧ vs.length = bc / 2 := by
  intro bc
  induction bc using Nat.strong_induction_on with
  | _ bc ih =>
    intro data hlen heven
    match bc, data, hlen with
    | 0, _, _ => exact ⟨[], rfl, rfl⟩
    | 1, [x], _ => simp at heven
    | n + 2, a :: b :: rest, hlen =>
      have hr : rest.length = n := by simpa using hlen
      have hre : n % 2 = 0 := by omega
      obtain ⟨vs, hvs, hlvs⟩ := ih n (by omega) rest hr hre
      refine ⟨(a * 256 + b) :: vs, ?_, ?_⟩
      · simp [parseRegisters, unpackBE16, hvs]
      · simp [hlvs]

/-- C9: when a function-03 response has an odd byte-count field and at
least `5 + byte_count` bytes have accumulated, `read_modbus_response`
raises `struct.error` from unpacking the final one-byte slice instead
of returning `None` or a register list; with an even byte-count field
the loop is total and returns one register per two data bytes. -/
theorem c9_odd_byte_count_crashes (r : List Nat) (bc : Nat)
    (h1 : r.get? 1 = some 0x03) (h2 : r.get? 2 = some bc)
    (hlen : 5 + bc ≤ r.length) :
    (bc % 2 = 1 → read_modbus_response r = .error .structError) ∧
    (bc % 2 = 0 → ∃ regs, read_modbus_response r = .ok (some regs) ∧
      regs.length = bc / 2) := by
  have hne : r ≠ [] := by
    intro h
    rw [h] at h1
    simp at h1
  have hrl : 2 ≤ r.length := by
    by_contra hc
    rw [List.get?_eq_none.mpr (by omega)] at h1
    simp at h1
  have hdata : ((r.drop 3).take bc).length = bc := by
    simp only [List.length_take, List.length_drop]
    omega
  have h1' : r[1]? = some 0x03 := by simpa using h1
  have h2' : r[2]? = some bc := by simpa using h2
  have hread : read_modbus_response r =
      (parseRegisters ((r.drop 3).take bc) bc).map some := by
    simp [read_modbus_response, hne, h1', h2']
  constructor
  · intro hodd
    rw [hread, parseRegisters_odd bc _ hdata hodd]
    rfl
  · intro heven
    obtain ⟨vs, hvs, hlvs⟩ := parseRegisters_even bc _ hdata heven
    exact ⟨vs, by rw [hread, hvs]; rfl, hlvs⟩

/-- C9 witness: the concrete frame `51 03 03 AA BB CC 00 00` (odd
byte count 3, 8 = 5 + 3 bytes accumulated) makes the reader raise
`struct.error`. -/
theorem c9_odd_byte_count_crashes_witness :
    read_modbus_response [0x51, 0x03, 0x03, 0xAA, 0xBB, 0xCC, 0x00, 0x00] =
      .error .structError :=
  (c9_odd_byte_count_crashes [0x51, 0x03, 0x03, 0xAA, 0xBB, 0xCC, 0x00, 0x00] 3
    rfl rfl (by decide)).1 (by decide)

/-! ### C10: the decoder ignores most of fault word 4 -/

/-- Two numbers agreeing on their low six bits agree after any mask
contained in both `0xFF` and `0x3F`. -/
theorem and_mask_of_low_six (a b m : Nat) (h : a &&& 0x3F = b &&& 0x3F)
    (hm : 0xFF &&& m = m) (hm' : 0x3F &&& m = m) :
    (a &&& 0xFF) &&& m = (b &&& 0xFF) &&& m := by
  calc (a &&& 0xFF) &&& m = a &&& (0xFF &&& m) := Nat.land_assoc a 0xFF m
    _ = a &&& m := by rw [hm]
    _ = a &&& (0x3F &&& m) := by rw [hm']
    _ = (a &&& 0x3F) &&& m := (Nat.land_assoc a 0x3F m).symm
    _ = (b &&& 0x3F) &&& m := by rw [h]
    _ = b &&& (0x3F &&& m) := Nat.land_assoc b 0x3F m
    _ = b &&& m := by rw [hm']
    _ = b &&& (0xFF &&& m) := by rw [hm]
    _ = (b &&& 0xFF) &&& m := (Nat.land_assoc b 0xFF m).symm

/-- The fault-4 checks depend only on high-byte bits 0–5 of word 4. -/
theorem fault4Checks_low_six (f4 f4' : Nat)
    (h : (f4 >>> 8) &&& 0x3F = (f4' >>> 8) &&& 0x3F) :
    fault4Checks f4 = fault4Checks f4' := by
  have e1 := and_mask_of_low_six (f4 >>> 8) (f4' >>> 8) 0x01 h (by decide) (by decide)
  have e2 := and_mask_of_low_six (f4 >>> 8) (f4' >>> 8) 0x02 h (by decide) (by decide)
  have e3 := and_mask_of_low_six (f4 >>> 8) (f4' >>> 8) 0x04 h (by decide) (by decide)
  have e4 := and_mask_of_low_six (f4 >>> 8) (f4' >>> 8) 0x08 h (by decide) (by decide)
  have e5 := and_mask_of_low_six (f4 >>> 8) (f4' >>> 8) 0x10 h (by decide) (by decide)
  have e6 := and_mask_of_low_six (f4 >>> 8) (f4' >>> 8) 0x20 h (by decide) (by decide)
  simp only [fault4Checks, e1, e2, e3, e4, e5, e6]

/-- C10: the fault decoder's output is unchanged by the entire low byte
of fault word 4 and by bits 6–7 of its high byte — any two values of
word 4 agreeing on high-byte bits 0–5 give identical outputs — and only
the 54 distinct labels of the fixed catalog (16 + 16 + 16 + 6 per word)
can ever be emitted. -/
theorem c10_fault4_mostly_ignored :
    (∀ f1 f2 f3 f4 f4' : Nat, (f4 >>> 8) &&& 0x3F = (f4' >>> 8) &&& 0x3F →
      get_fault_list f1 f2 f3 f4 = get_fault_list f1 f2 f3 f4') ∧
    faultCatalog.length = 54 ∧ faultCatalog.Nodup ∧
    (∀ (f1 f2 f3 f4 : Nat) (s : String),
      s ∈ get_fault_list f1 f2 f3 f4 → s ∈ faultCatalog) := by
  refine ⟨?_, by decide, by decide, ?_⟩
  · intro f1 f2 f3 f4 f4' h
    unfold get_fault_list faultChecks
    rw [fault4Checks_low_six f4 f4' h]
  · intro f1 f2 f3 f4 s hs
    exact (get_fault_list_sublist_catalog f1 f2 f3 f4).subset hs

/-- C10 witness: word 4 = `0x40FF` sets the whole low byte and
high-byte bits 6–7 yet decodes identically to word 4 = 0 — here with
word 1 = `0x0100` to show a nonempty output as well. -/
theorem c10_fault4_mostly_ignored_witness :
    get_fault_list 0x0100 0 0 0x40FF = get_fault_list 0x0100 0 0 0 :=
  c10_fault4_mostly_ignored.1 0x0100 0 0 0x40FF 0 (by decide)

end Daly
